import Mathlib

/-!
Shallow embedding of the reminder-scheduling and state-persistence core of
the Character+ mobile application (TypeScript / React Native), together with
proofs about the properties stated in its specification.

Sources embedded:
* `src/hooks/useNotifications.ts` (current revision): `normalizeHour`,
  `randomReminder`, and the slot-computation loop of `setupNotifications`.
* `src/utils/storage.ts`: `defaultState`, `loadState`, `saveState`.
* `src/types/index.ts` (current revision): the data model.
* `src/App.tsx`: `clamp`, `updateReminderWindow`, and the
  timesPerDay stepper handlers.

Modelling conventions: JavaScript integers are modelled as `Int` (all
quantities the spec ranges over are integral); JS objects used as string
maps (`Record<string, T>`) are modelled as association lists with
first-occurrence lookup, and "deep equality" on them compares lookups, not
entry order, exactly as structural deep equality of JS objects does.
-/

set_option autoImplicit false

namespace CharacterPlus

/-! ## Data model (src/types/index.ts, current revision) -/

inductive GoalCategory where
  | calmness | discipline | kindness | focus | punctuality
  deriving DecidableEq, Repr

structure GoalTemplate where
  id : GoalCategory
  title : String
  description : String
  reminders : List String
  deriving DecidableEq, Repr

structure UserGoal where
  id : String
  category : GoalCategory
  customAction : String
  isActive : Bool
  deriving DecidableEq, Repr

structure ReminderSettings where
  enabled : Bool
  timesPerDay : Int
  startHour : Int
  endHour : Int
  deriving DecidableEq, Repr

structure DailyCheckin where
  date : String
  score : Int
  note : String
  deriving DecidableEq, Repr

structure UserProfile where
  name : String
  onboardingCompleted : Bool
  isPremium : Bool
  deriving DecidableEq, Repr

inductive SettingsBlockKind where
  | traits | emotions | habits | values | custom
  deriving DecidableEq, Repr

structure SettingsBlock where
  id : String
  kind : SettingsBlockKind
  title : String
  color : String
  deriving DecidableEq, Repr

inductive WeekdayKey where
  | mon | tue | wed | thu | fri | sat | sun
  deriving DecidableEq, Repr

/-- The union `FixedTaskReminder | RandomTaskReminder`, discriminated by
its `mode` field in the source. -/
inductive TaskReminderConfig where
  | fixed (weekdays : List WeekdayKey) (times : List String)
  | random (weekdays : List WeekdayKey) (startHour : Int) (endHour : Int)
      (timesInWindow : Int)
  deriving DecidableEq, Repr

structure TaskReminderSettings where
  enabled : Bool
  config : TaskReminderConfig
  deriving DecidableEq, Repr

structure BlockTask where
  id : String
  title : String
  description : String
  motivation : String
  motivationImageUri : String
  reminders : TaskReminderSettings
  deriving DecidableEq, Repr

/-- A JS object used as a `Record<string, α>`: an association list with
unique keys in insertion order.  Lookup takes the first matching entry. -/
abbrev Rec (α : Type) : Type := List (String × α)

/-- First-occurrence key lookup, i.e. JS property access `r[k]`. -/
def lookupR {α : Type} (k : String) : Rec α → Option α
  | [] => none
  | p :: r => if p.1 = k then some p.2 else lookupR k r

/-- The JS object spread `\x7b...a, ...b\x7d`: keys of `a` first (with the
value from `b` when `b` also has the key), then the keys only `b` has. -/
def spreadRec {α : Type} (a b : Rec α) : Rec α :=
  (a.map fun p =>
    match lookupR p.1 b with
    | some v => (p.1, v)
    | none => p) ++
  b.filter fun p => (lookupR p.1 a).isNone

/-- Deep equality of two JS string-keyed objects: the same lookup result at
every key (entry order is irrelevant to JS deep equality). -/
def recEqv {α : Type} [DecidableEq α] (a b : Rec α) : Bool :=
  (a.all fun p => lookupR p.1 a = lookupR p.1 b) &&
  (b.all fun p => lookupR p.1 a = lookupR p.1 b)

/-- `AppState` as declared in the current `src/types/index.ts`. -/
structure AppState where
  goals : List UserGoal
  reminderSettings : ReminderSettings
  checkins : List DailyCheckin
  profile : UserProfile
  settingsBlocks : List SettingsBlock
  sectionNotes : Rec String
  sectionTasks : Rec (List BlockTask)
  deriving DecidableEq

/-! ## ReminderScheduler (src/hooks/useNotifications.ts, current revision) -/

/-- A scheduled daily trigger time, the `\x7bhour, minute\x7d` pair passed to
`scheduleNotificationAsync`. -/
structure Slot where
  hour : Nat
  minute : Nat
  deriving DecidableEq, Repr

/-- `normalizeHour(value) = Math.max(0, Math.min(23, Math.floor(value)))`.
On integral inputs `Math.floor` is the identity; the result lies in
`[0, 23]` so it is returned as a `Nat`. -/
def normalizeHour (value : Int) : Nat :=
  (max 0 (min 23 value)).toNat

/-- `Math.max(1, Math.min(8, timesPerDay))`, the `slots` count; the result
is at least 1, returned as a `Nat`. -/
def clampSlots (timesPerDay : Int) : Nat :=
  (max 1 (min 8 timesPerDay)).toNat

/-- `stepMinutes = Math.max(1, Math.floor(totalMinutes / slots))` where
`totalMinutes = (endHour - startHour) * 60`, for normalized hours. -/
def stepMinutesOf (startHour endHour slots : Nat) : Nat :=
  max 1 ((endHour - startHour) * 60 / slots)

/-- The `usedTimes` deduplication of the scheduling loop: an iteration
whose `hour:minute` trigger key was already seen is skipped (the string
key `hour:minute` identifies exactly the pair, so the set of seen keys is
modelled as a list of pairs). -/
def dedupSlots (seen : List (Nat × Nat)) : List Slot → List Slot
  | [] => []
  | s :: rest =>
    if (s.hour, s.minute) ∈ seen then dedupSlots seen rest
    else s :: dedupSlots ((s.hour, s.minute) :: seen) rest

/-- The slot produced by loop iteration `i`:
`offset = i * stepMinutes`, `hour = Math.min(23, startHour + Math.floor(offset / 60))`,
`minute = Math.min(59, offset % 60)`. -/
def slotAt (startHour stepMinutes i : Nat) : Slot :=
  { hour := min 23 (startHour + i * stepMinutes / 60)
    minute := min 59 (i * stepMinutes % 60) }

/-- The pure slot computation of `setupNotifications` (lines computing
`slots`, `startHour`, `endHour`, the `endHour <= startHour` early return,
`totalMinutes`, `stepMinutes`, and the scheduling loop with its
`usedTimes` deduplication). -/
def computeSlots (settings : ReminderSettings) : List Slot :=
  let slots := clampSlots settings.timesPerDay
  let startHour := normalizeHour settings.startHour
  let endHour := normalizeHour settings.endHour
  if endHour ≤ startHour then []
  else
    let stepMinutes := stepMinutesOf startHour endHour slots
    dedupSlots [] ((List.range slots).map fun i => slotAt startHour stepMinutes i)

/-- The fixed generic fallback reminder body used when there are no goals. -/
def genericReminderText : String :=
  "Сделай небольшой полезный шаг прямо сейчас."

/-- The per-goal fallback body used when the goal has no custom action. -/
def defaultActionText : String :=
  "Выбери полезное действие на этот час."

/-- `randomReminder(goals)`.  The two `Math.random()` draws are made
injectable (spec §9): `pick` selects the goal index and `pickT` the
template reminder index, each reduced modulo the list length exactly as
`Math.floor(Math.random() * length)` ranges over `[0, length)`.  The
`GOAL_TEMPLATES` catalog (`src/constants/templates.ts`, not among the
sources) is likewise a parameter. -/
def randomReminder (templates : List GoalTemplate) (pick pickT : Nat)
    (goals : List UserGoal) : String :=
  match goals with
  | [] => genericReminderText
  | g :: gs =>
    let goal := (g :: gs).get ⟨pick % (g :: gs).length, Nat.mod_lt _ (Nat.succ_pos gs.length)⟩
    let fallback := if goal.customAction = "" then defaultActionText else goal.customAction
    match templates.find? fun item => item.id = goal.category with
    | none => fallback
    | some template =>
      match template.reminders.get? (pickT % template.reminders.length) with
      | none => fallback
      | some body => body

/-- The notifications actually scheduled by one `setupNotifications` call:
after `cancelAllScheduledNotificationsAsync`, the early return when
reminders are disabled or there are no goals, then the permission gate
(`granted` bundles the granted-or-requested outcome), then one
notification per non-skipped loop iteration, whose body is a fresh
`randomReminder(goals)` draw (`rnd k` supplies the two draws of the k-th
scheduled notification). -/
def setupNotifications (granted : Bool) (templates : List GoalTemplate)
    (rnd : Nat → Nat × Nat) (settings : ReminderSettings)
    (goals : List UserGoal) : List (Slot × String) :=
  if !settings.enabled || goals.isEmpty then []
  else if !granted then []
  else
    (computeSlots settings).enum.map fun p =>
      (p.2, randomReminder templates (rnd p.1).1 (rnd p.1).2 goals)

/-! ## StateStore (src/utils/storage.ts) -/

/-- The persisted blob parsed as `Partial<AppState>`: any top-level field
may be absent, and the two nested objects the loader merges field-by-field
may themselves be partial. -/
structure PartialReminderSettings where
  enabled : Option Bool
  timesPerDay : Option Int
  startHour : Option Int
  endHour : Option Int
  deriving DecidableEq

structure PartialProfile where
  name : Option String
  onboardingCompleted : Option Bool
  isPremium : Option Bool
  deriving DecidableEq

structure PartialAppState where
  goals : Option (List UserGoal)
  reminderSettings : Option PartialReminderSettings
  checkins : Option (List DailyCheckin)
  profile : Option PartialProfile
  settingsBlocks : Option (List SettingsBlock)
  sectionNotes : Option (Rec String)
  sectionTasks : Option (Rec (List BlockTask))
  deriving DecidableEq

/-- What `AsyncStorage.getItem(KEY)` followed by `JSON.parse` can yield:
nothing stored, a string that fails to parse (the `catch` path), or a
parsed partial blob. -/
inductive Stored where
  | absent
  | corrupt
  | blob (p : PartialAppState)
  deriving DecidableEq

/-- The object `loadState` returns.  The source annotates its results as
`AppState`, but the `defaultState` literal has no `sectionTasks` key and
the merge never adds one, so on the JS side that property can be absent
(`undefined`); the model therefore keeps it optional while all other
fields are always present. -/
structure LoadedState where
  goals : List UserGoal
  reminderSettings : ReminderSettings
  checkins : List DailyCheckin
  profile : UserProfile
  settingsBlocks : List SettingsBlock
  sectionNotes : Rec String
  sectionTasks : Option (Rec (List BlockTask))
  deriving DecidableEq

/-- The `defaultState` literal of `src/utils/storage.ts` (it spells out
every field except `sectionTasks`, which is missing from the literal even
though its annotated type requires it). -/
def defaultState : LoadedState :=
  { goals := []
    reminderSettings := { enabled := false, timesPerDay := 3, startHour := 9, endHour := 21 }
    checkins := []
    profile := { name := "", onboardingCompleted := false, isPremium := false }
    settingsBlocks :=
      [ { id := "traits", kind := .traits, title := "Черты характера", color := "#eef4ff" }
      , { id := "emotions", kind := .emotions, title := "Эмоции", color := "#eefaf5" }
      , { id := "habits", kind := .habits, title := "Привычки", color := "#fff8eb" }
      , { id := "values", kind := .values, title := "Ценности и убеждения", color := "#f5f0ff" } ]
    sectionNotes := [("emotions", ""), ("habits", ""), ("values", "")]
    sectionTasks := none }

/-- `loadState`.  Absent raw value and parse failure both return
`defaultState`; a parsed blob is merged into the defaults: top-level
spread, field-level spread one level deep for `reminderSettings`,
`profile` and `sectionNotes`, `?? []` for `goals` and `checkins`, and the
`parsedBlocks` special case for `settingsBlocks` (absent or empty both
fall back to the default template blocks).  `sectionTasks` has no default
and no explicit override, so it is whatever the top-level spread of the
parsed blob carried. -/
def loadState : Stored → LoadedState
  | .absent => defaultState
  | .corrupt => defaultState
  | .blob parsed =>
    let parsedBlocks :=
      match parsed.settingsBlocks with
      | some l => if 0 < l.length then l else defaultState.settingsBlocks
      | none => defaultState.settingsBlocks
    { goals := parsed.goals.getD []
      reminderSettings :=
        { enabled := ((parsed.reminderSettings.bind fun r => r.enabled).getD
            defaultState.reminderSettings.enabled)
          timesPerDay := ((parsed.reminderSettings.bind fun r => r.timesPerDay).getD
            defaultState.reminderSettings.timesPerDay)
          startHour := ((parsed.reminderSettings.bind fun r => r.startHour).getD
            defaultState.reminderSettings.startHour)
          endHour := ((parsed.reminderSettings.bind fun r => r.endHour).getD
            defaultState.reminderSettings.endHour) }
      checkins := parsed.checkins.getD []
      profile :=
        { name := ((parsed.profile.bind fun r => r.name).getD defaultState.profile.name)
          onboardingCompleted := ((parsed.profile.bind fun r => r.onboardingCompleted).getD
            defaultState.profile.onboardingCompleted)
          isPremium := ((parsed.profile.bind fun r => r.isPremium).getD
            defaultState.profile.isPremium) }
      settingsBlocks := parsedBlocks
      sectionNotes := spreadRec defaultState.sectionNotes (parsed.sectionNotes.getD [])
      sectionTasks := parsed.sectionTasks }

/-- `JSON.stringify` of a full `AppState` parses back to a blob with every
field present (the serialization is faithful on this typed model: integers
and strings survive the round trip). -/
def saveBlob (s : AppState) : PartialAppState :=
  { goals := some s.goals
    reminderSettings := some
      { enabled := some s.reminderSettings.enabled
        timesPerDay := some s.reminderSettings.timesPerDay
        startHour := some s.reminderSettings.startHour
        endHour := some s.reminderSettings.endHour }
    checkins := some s.checkins
    profile := some
      { name := some s.profile.name
        onboardingCompleted := some s.profile.onboardingCompleted
        isPremium := some s.profile.isPremium }
    settingsBlocks := some s.settingsBlocks
    sectionNotes := some s.sectionNotes
    sectionTasks := some s.sectionTasks }

/-- `saveState` overwrites the stored value with the serialized state, so
a subsequent read parses to the full blob of `s`. -/
def saveState (s : AppState) : Stored :=
  .blob (saveBlob s)

/-- JS deep equality between what `loadState` returned and an `AppState`
value: structural on lists and scalars, lookup-based on the string-keyed
records, and requiring the `sectionTasks` property to actually be
present. -/
def loadedEqState (l : LoadedState) (s : AppState) : Bool :=
  l.goals = s.goals &&
  l.reminderSettings = s.reminderSettings &&
  l.checkins = s.checkins &&
  l.profile = s.profile &&
  l.settingsBlocks = s.settingsBlocks &&
  recEqv l.sectionNotes s.sectionNotes &&
  match l.sectionTasks with
  | some r => recEqv r s.sectionTasks
  | none => false

/-! ## UI update handlers (src/App.tsx) -/

/-- `clamp(value, min, max) = Math.max(min, Math.min(max, value))`. -/
def clamp (value lo hi : Int) : Int :=
  max lo (min hi value)

inductive HourField where
  | startHour
  | endHour
  deriving DecidableEq

/-- `updateReminderWindow(field, delta)`: the new `reminderSettings`
window produced from the previous one. -/
def updateReminderWindow (field : HourField) (delta : Int)
    (rs : ReminderSettings) : ReminderSettings :=
  match field with
  | .startHour =>
    let startHour := clamp (rs.startHour + delta) 0 22
    let endHour := if startHour ≥ rs.endHour then clamp (startHour + 1) 1 23 else rs.endHour
    { rs with startHour := startHour, endHour := endHour }
  | .endHour =>
    let endHour := clamp (rs.endHour + delta) 1 23
    let startHour := if endHour ≤ rs.startHour then clamp (endHour - 1) 0 22 else rs.startHour
    { rs with startHour := startHour, endHour := endHour }

/-- The minus button of the "Раз в день" stepper:
`timesPerDay := Math.max(1, timesPerDay - 1)`. -/
def decTimesPerDay (rs : ReminderSettings) : ReminderSettings :=
  { rs with timesPerDay := max 1 (rs.timesPerDay - 1) }

/-- The plus button of the "Раз в день" stepper:
`timesPerDay := Math.min(8, timesPerDay + 1)`. -/
def incTimesPerDay (rs : ReminderSettings) : ReminderSettings :=
  { rs with timesPerDay := min 8 (rs.timesPerDay + 1) }

/-! ## Concrete inputs used by witnesses and counterexamples -/

/-- A persisted blob with every field absent. -/
def emptyBlob : PartialAppState :=
  { goals := none, reminderSettings := none, checkins := none, profile := none
    settingsBlocks := none, sectionNotes := none, sectionTasks := none }

/-- The blob parsed from the spec example string: only `profile.name` is
present. -/
def alBlob : PartialAppState :=
  { emptyBlob with
    profile := some { name := some "Al", onboardingCompleted := none, isPremium := none } }

/-- A blob in which the three list-valued fields are explicitly persisted
as empty lists. -/
def emptyListsBlob : PartialAppState :=
  { emptyBlob with goals := some [], checkins := some [], settingsBlocks := some [] }

/-- A well-formed `AppState` whose `settingsBlocks` is the empty list
(every field of the current shape present and typed). -/
def emptyBlocksState : AppState :=
  { goals := []
    reminderSettings := { enabled := false, timesPerDay := 3, startHour := 9, endHour := 21 }
    checkins := []
    profile := { name := "", onboardingCompleted := false, isPremium := false }
    settingsBlocks := []
    sectionNotes := [("emotions", ""), ("habits", ""), ("values", "")]
    sectionTasks := [] }

/-- The enabled default reminder window, a valid window. -/
def enabledWindow : ReminderSettings :=
  { enabled := true, timesPerDay := 3, startHour := 9, endHour := 21 }

/-- A well-formed `AppState` with the default template blocks present. -/
def templateBlocksState : AppState :=
  { emptyBlocksState with settingsBlocks := defaultState.settingsBlocks }

/-- A well-formed `AppState` whose `sectionNotes` record has no entries. -/
def sparseNotesState : AppState :=
  { templateBlocksState with sectionNotes := [] }

/-! ## Record lemmas -/

theorem recEqv_refl {α : Type} [DecidableEq α] (a : Rec α) : recEqv a a = true := by
  simp [recEqv, List.all_eq_true]

theorem recEqv_of_lookup_eq {α : Type} [DecidableEq α] {a b : Rec α}
    (h : ∀ k, lookupR k a = lookupR k b) : recEqv a b = true := by
  simp only [recEqv, List.all_eq_true, Bool.and_eq_true, decide_eq_true_eq]
  exact ⟨fun p _ => h p.1, fun p _ => h p.1⟩

theorem lookupR_append_some {α : Type} {k : String} {a : Rec α} {v : α} (b : Rec α)
    (h : lookupR k a = some v) : lookupR k (a ++ b) = some v := by
  induction a with
  | nil => simp [lookupR] at h
  | cons p rest ih =>
    by_cases hp : p.1 = k
    · rw [lookupR, if_pos hp] at h
      simpa [lookupR, hp] using h
    · rw [lookupR, if_neg hp] at h
      simpa [lookupR, hp] using ih h

theorem lookupR_append_none {α : Type} {k : String} {a : Rec α} (b : Rec α)
    (h : lookupR k a = none) : lookupR k (a ++ b) = lookupR k b := by
  induction a with
  | nil => simp [lookupR]
  | cons p rest ih =>
    by_cases hp : p.1 = k
    · rw [lookupR, if_pos hp] at h
      exact absurd h (by simp)
    · rw [lookupR, if_neg hp] at h
      simpa [lookupR, hp] using ih h

/-- Looking up a key the base has: the mapped base entries keep their keys
and take the overriding value when the override also has the key. -/
theorem lookupR_spread_base_some {α : Type} {k : String} {d : Rec α} {v w : α} (n : Rec α)
    (hd : lookupR k d = some v) (hn : lookupR k n = some w) :
    lookupR k (d.map fun p =>
      match lookupR p.1 n with
      | some u => (p.1, u)
      | none => p) = some w := by
  induction d with
  | nil => simp [lookupR] at hd
  | cons p rest ih =>
    simp only [List.map_cons]
    by_cases hp : p.1 = k
    · rw [show lookupR p.1 n = some w from hp ▸ hn]
      simp [lookupR, hp]
    · rw [lookupR, if_neg hp] at hd
      cases hq : lookupR p.1 n with
      | none => simpa [lookupR, hp] using ih hd
      | some u => simpa [lookupR, hp] using ih hd

/-- Looking up a key the base lacks among the mapped base entries finds
nothing, since the map keeps every key. -/
theorem lookupR_spread_base_none {α : Type} {k : String} {d : Rec α} (n : Rec α)
    (hd : lookupR k d = none) :
    lookupR k (d.map fun p =>
      match lookupR p.1 n with
      | some u => (p.1, u)
      | none => p) = none := by
  induction d with
  | nil => simp [lookupR]
  | cons p rest ih =>
    simp only [List.map_cons]
    by_cases hp : p.1 = k
    · rw [lookupR, if_pos hp] at hd
      exact absurd hd (by simp)
    · rw [lookupR, if_neg hp] at hd
      cases hq : lookupR p.1 n with
      | none => simpa [lookupR, hp] using ih hd
      | some u => simpa [lookupR, hp] using ih hd

/-- Filtering out entries whose key is absent from `d` does not change the
lookup of a key that is absent from `d`. -/
theorem lookupR_filter_none {α : Type} (k : String) (d n : Rec α)
    (hk : lookupR k d = none) :
    lookupR k (n.filter fun p => (lookupR p.1 d).isNone) = lookupR k n := by
  induction n with
  | nil => simp
  | cons p rest ih =>
    by_cases hp : p.1 = k
    · subst hp
      simp [List.filter_cons, hk, lookupR]
    · cases hd : lookupR p.1 d with
      | none => simpa [List.filter_cons, hd, lookupR, hp] using ih
      | some v => simpa [List.filter_cons, hd, lookupR, hp] using ih

/-- Any key of `d` whose entry satisfies the coverage hypothesis has a
present lookup in `n`. -/
theorem lookupR_isSome_of_cov {α : Type} {d n : Rec α} {k : String} {v : α}
    (hcov : ∀ p ∈ d, (lookupR p.1 n).isSome = true) (hd : lookupR k d = some v) :
    (lookupR k n).isSome = true := by
  induction d with
  | nil => simp [lookupR] at hd
  | cons p rest ih =>
    by_cases hp : p.1 = k
    · exact hp ▸ hcov p (by simp)
    · rw [lookupR, if_neg hp] at hd
      exact ih (fun q hq => hcov q (by simp [hq])) hd

/-- When every key of the base `d` is present in the override `n`, the JS
spread `\x7b...d, ...n\x7d` has exactly the lookups of `n`. -/
theorem lookupR_spreadRec {α : Type} (d n : Rec α)
    (hcov : ∀ p ∈ d, (lookupR p.1 n).isSome = true) (k : String) :
    lookupR k (spreadRec d n) = lookupR k n := by
  unfold spreadRec
  cases hd : lookupR k d with
  | some v =>
    have hks := lookupR_isSome_of_cov hcov hd
    cases hn : lookupR k n with
    | none => rw [hn] at hks; simp at hks
    | some w => exact lookupR_append_some _ (lookupR_spread_base_some n hd hn)
  | none =>
    rw [lookupR_append_none _ (lookupR_spread_base_none n hd)]
    exact lookupR_filter_none k d n hd

/-! ## Scheduler lemmas -/

/-- On a list of slots with pairwise-distinct trigger keys none of which
was seen before, the deduplication is the identity. -/
theorem dedupSlots_eq_self (l : List Slot) (seen : List (Nat × Nat))
    (hpair : l.Pairwise fun a b => (a.hour, a.minute) ≠ (b.hour, b.minute))
    (hseen : ∀ s ∈ l, (s.hour, s.minute) ∉ seen) :
    dedupSlots seen l = l := by
  induction l generalizing seen with
  | nil => rfl
  | cons s rest ih =>
    have hs : (s.hour, s.minute) ∉ seen := hseen s (by simp)
    rw [dedupSlots, if_neg hs]
    have hrest := List.pairwise_cons.mp hpair
    refine congrArg (s :: ·) (ih _ hrest.2 fun x hx => ?_)
    intro hmem
    rcases List.mem_cons.mp hmem with heq | hseenx
    · exact hrest.1 x hx heq.symm
    · exact hseen x (by simp [hx]) hseenx

/-- Arithmetic facts about the step: with at most 8 slots in a window of
at least one hour, the step is the exact integer division (at least 7
minutes) and every loop offset stays at least 7 minutes short of the
window length. -/
theorem stepMinutes_facts (s e n : Nat) (hn1 : 1 ≤ n) (hn8 : n ≤ 8) (hse : s < e) :
    7 ≤ stepMinutesOf s e n ∧
    stepMinutesOf s e n = (e - s) * 60 / n ∧
    ∀ i, i < n → i * stepMinutesOf s e n ≤ (e - s) * 60 - 7 := by
  have h60 : 60 ≤ (e - s) * 60 := by omega
  have hq7 : 7 ≤ (e - s) * 60 / n := by
    have h1 : (60 : Nat) / 8 ≤ (e - s) * 60 / 8 := Nat.div_le_div_right h60
    have h2 : (e - s) * 60 / 8 ≤ (e - s) * 60 / n := Nat.div_le_div_left hn8 (by omega)
    omega
  have hstep : stepMinutesOf s e n = (e - s) * 60 / n := by
    unfold stepMinutesOf
    omega
  refine ⟨by omega, hstep, fun i hi => ?_⟩
  have hmul : (e - s) * 60 / n * n ≤ (e - s) * 60 := Nat.div_mul_le_self _ n
  have hmono : i * ((e - s) * 60 / n) ≤ (n - 1) * ((e - s) * 60 / n) :=
    Nat.mul_le_mul_right _ (by omega)
  have hsub : (n - 1) * ((e - s) * 60 / n) = n * ((e - s) * 60 / n) - (e - s) * 60 / n :=
    Nat.sub_one_mul _ _
  have hcomm : n * ((e - s) * 60 / n) = (e - s) * 60 / n * n := Nat.mul_comm _ _
  rw [hstep]
  omega

/-- Pointwise description of the slot of iteration `i` in the valid-window
regime: the clamps are no-ops, the slot encodes the minute offset
`s * 60 + i * step`, and that offset is inside the window. -/
theorem slotAt_spec (s e n i : Nat) (hn1 : 1 ≤ n) (hn8 : n ≤ 8) (hse : s < e)
    (he : e ≤ 23) (hi : i < n) :
    (slotAt s (stepMinutesOf s e n) i).hour * 60 + (slotAt s (stepMinutesOf s e n) i).minute =
      s * 60 + i * stepMinutesOf s e n ∧
    s ≤ (slotAt s (stepMinutesOf s e n) i).hour ∧
    (slotAt s (stepMinutesOf s e n) i).minute ≤ 59 ∧
    (slotAt s (stepMinutesOf s e n) i).hour * 60 + (slotAt s (stepMinutesOf s e n) i).minute <
      e * 60 := by
  obtain ⟨h7, _, hoff⟩ := stepMinutes_facts s e n hn1 hn8 hse
  have hoffi := hoff i hi
  unfold slotAt
  simp only
  have hhour : min 23 (s + i * stepMinutesOf s e n / 60) = s + i * stepMinutesOf s e n / 60 := by
    omega
  have hmin : min 59 (i * stepMinutesOf s e n % 60) = i * stepMinutesOf s e n % 60 := by
    omega
  rw [hhour, hmin]
  omega

/-- In the valid-window regime the deduplication never fires: the computed
list is exactly one slot per loop iteration. -/
theorem computeSlots_eq_map (settings : ReminderSettings)
    (hn1 : 1 ≤ settings.timesPerDay) (hn8 : settings.timesPerDay ≤ 8)
    (hs0 : 0 ≤ settings.startHour) (he23 : settings.endHour ≤ 23)
    (hlt : settings.startHour < settings.endHour) :
    computeSlots settings =
      (List.range (clampSlots settings.timesPerDay)).map
        (slotAt (normalizeHour settings.startHour)
          (stepMinutesOf (normalizeHour settings.startHour)
            (normalizeHour settings.endHour) (clampSlots settings.timesPerDay))) ∧
    normalizeHour settings.startHour < normalizeHour settings.endHour ∧
    normalizeHour settings.endHour ≤ 23 ∧
    1 ≤ clampSlots settings.timesPerDay ∧
    clampSlots settings.timesPerDay ≤ 8 ∧
    (clampSlots settings.timesPerDay : Int) = settings.timesPerDay := by
  have hs : (normalizeHour settings.startHour : Int) = settings.startHour := by
    unfold normalizeHour
    omega
  have he : (normalizeHour settings.endHour : Int) = settings.endHour := by
    unfold normalizeHour
    omega
  have hn : (clampSlots settings.timesPerDay : Int) = settings.timesPerDay := by
    unfold clampSlots
    omega
  have hse : normalizeHour settings.startHour < normalizeHour settings.endHour := by omega
  have he23n : normalizeHour settings.endHour ≤ 23 := by omega
  have hn1n : 1 ≤ clampSlots settings.timesPerDay := by omega
  have hn8n : clampSlots settings.timesPerDay ≤ 8 := by omega
  refine ⟨?_, hse, he23n, hn1n, hn8n, hn⟩
  set s := normalizeHour settings.startHour
  set e := normalizeHour settings.endHour
  set n := clampSlots settings.timesPerDay
  set step := stepMinutesOf s e n with hstep
  unfold computeSlots
  rw [if_neg (by omega)]
  refine dedupSlots_eq_self _ [] ?_ (by simp)
  rw [List.pairwise_map]
  rw [List.pairwise_iff_getElem]
  intro i j hi hj hij
  simp only [List.getElem_range] at *
  rw [List.length_range] at hi hj
  have hspec_i := slotAt_spec s e n i hn1n hn8n hse he23n hi
  have hspec_j := slotAt_spec s e n j hn1n hn8n hse he23n hj
  obtain ⟨h7, _, _⟩ := stepMinutes_facts s e n hn1n hn8n hse
  intro heq
  have hhm : (slotAt s step i).hour = (slotAt s step j).hour ∧
      (slotAt s step i).minute = (slotAt s step j).minute := by
    have h1 := congrArg Prod.fst heq
    have h2 := congrArg Prod.snd heq
    exact ⟨h1, h2⟩
  have htime : s * 60 + i * step = s * 60 + j * step := by
    rw [← hspec_i.1, ← hspec_j.1, hhm.1, hhm.2]
  have hstrict : i * step < j * step :=
    Nat.mul_lt_mul_of_lt_of_le hij (Nat.le_refl step) (by omega)
  omega

/-! ## Claims about the scheduler -/

/-- C2: for every reminder-settings input with `endHour ≤ startHour`, and
any `timesPerDay`, the slot computation returns the empty list. -/
theorem claim_C2 (settings : ReminderSettings)
    (h : settings.endHour ≤ settings.startHour) :
    computeSlots settings = [] := by
  have hnorm : normalizeHour settings.endHour ≤ normalizeHour settings.startHour := by
    unfold normalizeHour
    omega
  simp only [computeSlots]
  rw [if_pos hnorm]

/-- Witness for C2 at the concrete input `startHour = endHour = 10`. -/
theorem claim_C2_witness :
    (ReminderSettings.mk true 5 10 10).endHour ≤ (ReminderSettings.mk true 5 10 10).startHour ∧
    computeSlots (ReminderSettings.mk true 5 10 10) = [] :=
  ⟨by decide, claim_C2 (ReminderSettings.mk true 5 10 10) (by decide)⟩

/-- C3: for `timesPerDay ∈ [1,8]` and a valid window (`0 ≤ startHour`,
`endHour ≤ 23`, `startHour < endHour`), the computation yields at most
`timesPerDay` slots, every slot lies in `[startHour:00, endHour:00)`, the
slots are strictly increasing in time, and no two share an
`(hour, minute)` pair. -/
theorem claim_C3 (settings : ReminderSettings)
    (hn1 : 1 ≤ settings.timesPerDay) (hn8 : settings.timesPerDay ≤ 8)
    (hs0 : 0 ≤ settings.startHour) (he23 : settings.endHour ≤ 23)
    (hlt : settings.startHour < settings.endHour) :
    ((computeSlots settings).length : Int) ≤ settings.timesPerDay ∧
    (∀ slot ∈ computeSlots settings,
      settings.startHour * 60 ≤ (slot.hour : Int) * 60 + (slot.minute : Int) ∧
      (slot.hour : Int) * 60 + (slot.minute : Int) < settings.endHour * 60) ∧
    (computeSlots settings).Pairwise
      (fun a b => a.hour * 60 + a.minute < b.hour * 60 + b.minute) ∧
    (computeSlots settings).Pairwise
      (fun a b => (a.hour, a.minute) ≠ (b.hour, b.minute)) := by
  obtain ⟨hmap, hse, he23n, hn1n, hn8n, hcast⟩ :=
    computeSlots_eq_map settings hn1 hn8 hs0 he23 hlt
  have hs : (normalizeHour settings.startHour : Int) = settings.startHour := by
    unfold normalizeHour
    omega
  have he : (normalizeHour settings.endHour : Int) = settings.endHour := by
    unfold normalizeHour
    omega
  set s := normalizeHour settings.startHour
  set e := normalizeHour settings.endHour
  set n := clampSlots settings.timesPerDay
  have hlen : (computeSlots settings).length = n := by
    rw [hmap, List.length_map, List.length_range]
  have htime : (computeSlots settings).Pairwise
      (fun a b => a.hour * 60 + a.minute < b.hour * 60 + b.minute) := by
    rw [hmap, List.pairwise_map, List.pairwise_iff_getElem]
    intro i j hi hj hij
    rw [List.length_range] at hi hj
    simp only [List.getElem_range]
    have hspec_i := slotAt_spec s e n i hn1n hn8n hse he23n hi
    have hspec_j := slotAt_spec s e n j hn1n hn8n hse he23n hj
    obtain ⟨h7, _, _⟩ := stepMinutes_facts s e n hn1n hn8n hse
    have hstrict : i * stepMinutesOf s e n < j * stepMinutesOf s e n :=
      Nat.mul_lt_mul_of_lt_of_le hij (Nat.le_refl (stepMinutesOf s e n)) (by omega)
    omega
  refine ⟨by omega, ?_, htime, ?_⟩
  · intro slot hslot
    rw [hmap] at hslot
    rcases List.mem_map.mp hslot with ⟨i, hi, rfl⟩
    rw [List.mem_range] at hi
    have hspec := slotAt_spec s e n i hn1n hn8n hse he23n hi
    constructor <;> omega
  · refine htime.imp ?_
    intro a b hab heq
    have h1 : a.hour = b.hour := congrArg Prod.fst heq
    have h2 : a.minute = b.minute := congrArg Prod.snd heq
    omega

/-- Witness for C3 at the default enabled window (9 → 21, 3 per day). -/
theorem claim_C3_witness :
    ((1 : Int) ≤ enabledWindow.timesPerDay ∧ enabledWindow.timesPerDay ≤ 8 ∧
      0 ≤ enabledWindow.startHour ∧ enabledWindow.endHour ≤ 23 ∧
      enabledWindow.startHour < enabledWindow.endHour) ∧
    (((computeSlots enabledWindow).length : Int) ≤ enabledWindow.timesPerDay ∧
    (∀ slot ∈ computeSlots enabledWindow,
      enabledWindow.startHour * 60 ≤ (slot.hour : Int) * 60 + (slot.minute : Int) ∧
      (slot.hour : Int) * 60 + (slot.minute : Int) < enabledWindow.endHour * 60) ∧
    (computeSlots enabledWindow).Pairwise
      (fun a b => a.hour * 60 + a.minute < b.hour * 60 + b.minute) ∧
    (computeSlots enabledWindow).Pairwise
      (fun a b => (a.hour, a.minute) ≠ (b.hour, b.minute))) :=
  ⟨⟨by decide, by decide, by decide, by decide, by decide⟩,
    claim_C3 enabledWindow (by decide) (by decide) (by decide) (by decide) (by decide)⟩

/-- C8: on the window 9 → 10 with `timesPerDay = 8`, the step is
`max(1, ⌊60/8⌋) = 7` and the computed slots are exactly 09:00, 09:07,
09:14, 09:21, 09:28, 09:35, 09:42, 09:49, none of them past
`endHour - 1 : 59 = 09:59`. -/
theorem claim_C8 :
    stepMinutesOf (normalizeHour 9) (normalizeHour 10) (clampSlots 8) = 7 ∧
    computeSlots (ReminderSettings.mk true 8 9 10) =
      [Slot.mk 9 0, Slot.mk 9 7, Slot.mk 9 14, Slot.mk 9 21,
       Slot.mk 9 28, Slot.mk 9 35, Slot.mk 9 42, Slot.mk 9 49] ∧
    ∀ slot ∈ computeSlots (ReminderSettings.mk true 8 9 10),
      slot.hour * 60 + slot.minute ≤ 9 * 60 + 59 := by
  decide

/-! ## Claims about the state store -/

/-- C4: a persisted blob whose `settingsBlocks` is absent or an explicit
empty list loads with the default four template blocks, while the other
list-valued fields persisted as empty lists stay empty. -/
theorem claim_C4 (p : PartialAppState)
    (h : p.settingsBlocks = none ∨ p.settingsBlocks = some []) :
    (loadState (.blob p)).settingsBlocks = defaultState.settingsBlocks ∧
    (p.goals = some [] → (loadState (.blob p)).goals = []) ∧
    (p.checkins = some [] → (loadState (.blob p)).checkins = []) := by
  refine ⟨?_, fun hg => by simp [loadState, hg], fun hc => by simp [loadState, hc]⟩
  rcases h with h | h <;> simp [loadState, h]

/-- Witness for C4 at a blob persisting all three lists as empty. -/
theorem claim_C4_witness :
    (emptyListsBlob.settingsBlocks = none ∨ emptyListsBlob.settingsBlocks = some []) ∧
    ((loadState (.blob emptyListsBlob)).settingsBlocks = defaultState.settingsBlocks ∧
    (emptyListsBlob.goals = some [] → (loadState (.blob emptyListsBlob)).goals = []) ∧
    (emptyListsBlob.checkins = some [] → (loadState (.blob emptyListsBlob)).checkins = [])) :=
  ⟨by decide, claim_C4 emptyListsBlob (by decide)⟩

/-- C5: on absent storage, and on a stored string that fails to parse,
`loadState` returns exactly the hard-coded `defaultState`; both paths are
total, so no error reaches the caller. -/
theorem claim_C5 :
    loadState .absent = defaultState ∧ loadState .corrupt = defaultState :=
  ⟨rfl, rfl⟩

/-- C6: for every persisted blob that specifies a nested object
(`profile` or `reminderSettings`) only partially, `loadState` keeps each
persisted sub-field and fills only the missing sub-fields from the
defaults, and a list-valued field that is absent loads empty; in
particular, loading `\x7bprofile: \x7bname: "Al"\x7d\x7d` yields
`profile.name = "Al"`, `profile.onboardingCompleted = false`, and
`goals = []`. -/
theorem claim_C6 (p : PartialAppState) :
    (∀ pr, p.profile = some pr →
      ((∀ v, pr.name = some v → (loadState (.blob p)).profile.name = v) ∧
        (pr.name = none →
          (loadState (.blob p)).profile.name = defaultState.profile.name)) ∧
      ((∀ v, pr.onboardingCompleted = some v →
          (loadState (.blob p)).profile.onboardingCompleted = v) ∧
        (pr.onboardingCompleted = none →
          (loadState (.blob p)).profile.onboardingCompleted =
            defaultState.profile.onboardingCompleted)) ∧
      ((∀ v, pr.isPremium = some v → (loadState (.blob p)).profile.isPremium = v) ∧
        (pr.isPremium = none →
          (loadState (.blob p)).profile.isPremium = defaultState.profile.isPremium))) ∧
    (∀ rs, p.reminderSettings = some rs →
      ((∀ v, rs.enabled = some v → (loadState (.blob p)).reminderSettings.enabled = v) ∧
        (rs.enabled = none →
          (loadState (.blob p)).reminderSettings.enabled =
            defaultState.reminderSettings.enabled)) ∧
      ((∀ v, rs.timesPerDay = some v →
          (loadState (.blob p)).reminderSettings.timesPerDay = v) ∧
        (rs.timesPerDay = none →
          (loadState (.blob p)).reminderSettings.timesPerDay =
            defaultState.reminderSettings.timesPerDay)) ∧
      ((∀ v, rs.startHour = some v →
          (loadState (.blob p)).reminderSettings.startHour = v) ∧
        (rs.startHour = none →
          (loadState (.blob p)).reminderSettings.startHour =
            defaultState.reminderSettings.startHour)) ∧
      ((∀ v, rs.endHour = some v → (loadState (.blob p)).reminderSettings.endHour = v) ∧
        (rs.endHour = none →
          (loadState (.blob p)).reminderSettings.endHour =
            defaultState.reminderSettings.endHour))) ∧
    (p.goals = none → (loadState (.blob p)).goals = []) ∧
    ((loadState (.blob alBlob)).profile.name = "Al" ∧
      (loadState (.blob alBlob)).profile.onboardingCompleted = false ∧
      (loadState (.blob alBlob)).goals = []) := by
  refine ⟨fun pr hpr => ?_, fun rs hrs => ?_, fun hg => ?_,
    by decide, by decide, by decide⟩
  · refine ⟨⟨fun v hv => ?_, fun hv => ?_⟩, ⟨fun v hv => ?_, fun hv => ?_⟩,
      ⟨fun v hv => ?_, fun hv => ?_⟩⟩ <;> simp [loadState, hpr, hv]
  · refine ⟨⟨fun v hv => ?_, fun hv => ?_⟩, ⟨fun v hv => ?_, fun hv => ?_⟩,
      ⟨fun v hv => ?_, fun hv => ?_⟩, ⟨fun v hv => ?_, fun hv => ?_⟩⟩ <;>
      simp [loadState, hrs, hv]
  · simp [loadState, hg]

/-- Witness for C6: the spec's `\x7bprofile: \x7bname: "Al"\x7d\x7d` blob has a
partial profile with `name` persisted and `onboardingCompleted` absent;
the persisted sub-field is kept, the missing one is filled from the
default, and the absent `goals` list loads empty. -/
theorem claim_C6_witness :
    (alBlob.profile = some (PartialProfile.mk (some "Al") none none) ∧
      (PartialProfile.mk (some "Al") none none).name = some "Al" ∧
      (PartialProfile.mk (some "Al") none none).onboardingCompleted = none ∧
      alBlob.goals = none) ∧
    ((loadState (.blob alBlob)).profile.name = "Al" ∧
      (loadState (.blob alBlob)).profile.onboardingCompleted =
        defaultState.profile.onboardingCompleted ∧
      (loadState (.blob alBlob)).goals = []) :=
  ⟨⟨by decide, by decide, by decide, by decide⟩,
    ((claim_C6 alBlob).1 (PartialProfile.mk (some "Al") none none) (by decide)).1.1
      "Al" (by decide),
    ((claim_C6 alBlob).1 (PartialProfile.mk (some "Al") none none) (by decide)).2.1.2
      (by decide),
    (claim_C6 alBlob).2.2.1 (by decide)⟩

/-- C7 evaluation at the failing input: on absent storage (first launch)
the state `loadState` returns has no `sectionTasks` property at all, so
not every top-level field of the current `AppState` shape is present. -/
theorem claim_C7_sectionTasks_missing :
    (loadState .absent).sectionTasks = none :=
  rfl

/-- C1 fails as stated: for the well-formed state whose `settingsBlocks`
is the empty list, save-then-load is not deep-equal to the input — the
loader replaces the empty list by the default template blocks. -/
theorem claim_C1_counterexample :
    loadedEqState (loadState (saveState emptyBlocksState)) emptyBlocksState = false ∧
    emptyBlocksState.settingsBlocks = [] ∧
    (loadState (saveState emptyBlocksState)).settingsBlocks = defaultState.settingsBlocks ∧
    loadedEqState (loadState (saveState sparseNotesState)) sparseNotesState = false ∧
    (loadState (saveState sparseNotesState)).sectionNotes = defaultState.sectionNotes := by
  decide

/-- C1 as amended: save-then-load is deep-equal to the input for every
well-formed `AppState` whose `settingsBlocks` is nonempty and whose
`sectionNotes` has entries for the three default note keys. -/
theorem claim_C1_amended (S : AppState) (hblocks : S.settingsBlocks ≠ [])
    (hnotes : ∀ p ∈ defaultState.sectionNotes, (lookupR p.1 S.sectionNotes).isSome = true) :
    loadedEqState (loadState (saveState S)) S = true := by
  have hblob : loadState (saveState S) =
      { goals := S.goals
        reminderSettings := S.reminderSettings
        checkins := S.checkins
        profile := S.profile
        settingsBlocks := S.settingsBlocks
        sectionNotes := spreadRec defaultState.sectionNotes S.sectionNotes
        sectionTasks := some S.sectionTasks } := by
    simp only [saveState, saveBlob, loadState]
    rw [if_pos (List.length_pos.mpr hblocks)]
    rfl
  rw [hblob]
  have h1 : recEqv (spreadRec defaultState.sectionNotes S.sectionNotes) S.sectionNotes = true :=
    recEqv_of_lookup_eq (lookupR_spreadRec defaultState.sectionNotes S.sectionNotes hnotes)
  simp [loadedEqState, h1, recEqv_refl]

/-- Witness for the amended C1 at a concrete well-formed state with the
template blocks and the default note keys. -/
theorem claim_C1_amended_witness :
    (templateBlocksState.settingsBlocks ≠ [] ∧
      ∀ p ∈ defaultState.sectionNotes,
        (lookupR p.1 templateBlocksState.sectionNotes).isSome = true) ∧
    loadedEqState (loadState (saveState templateBlocksState)) templateBlocksState = true :=
  ⟨⟨by decide, by decide⟩,
    claim_C1_amended templateBlocksState (by decide) (by decide)⟩

/-- C9 fails as stated: at a valid enabled window with an empty goals
list, `setupNotifications` returns before scheduling anything, even
though the slot computation alone would produce slots. -/
theorem claim_C9_counterexample :
    setupNotifications true [] (fun _ => (0, 0)) enabledWindow [] = [] ∧
    computeSlots enabledWindow ≠ [] := by
  decide

/-- C9 as amended: with an empty goals list the scheduler schedules
nothing at all for any valid window (the `goals.length === 0` guard
returns early); the fixed generic fallback body is what the message
selector `randomReminder` yields on an empty goals list, so it can only
accompany slots when the goals list is nonempty. -/
theorem claim_C9_amended (granted : Bool) (templates : List GoalTemplate)
    (rnd : Nat → Nat × Nat) (settings : ReminderSettings)
    (hn1 : 1 ≤ settings.timesPerDay) (hn8 : settings.timesPerDay ≤ 8)
    (hs0 : 0 ≤ settings.startHour) (he23 : settings.endHour ≤ 23)
    (hlt : settings.startHour < settings.endHour) :
    setupNotifications granted templates rnd settings [] = [] ∧
    ∀ i j, randomReminder templates i j [] = genericReminderText := by
  refine ⟨?_, fun i j => rfl⟩
  simp [setupNotifications]

/-- Witness for the amended C9 at the default enabled window. -/
theorem claim_C9_amended_witness :
    ((1 : Int) ≤ enabledWindow.timesPerDay ∧ enabledWindow.timesPerDay ≤ 8 ∧
      0 ≤ enabledWindow.startHour ∧ enabledWindow.endHour ≤ 23 ∧
      enabledWindow.startHour < enabledWindow.endHour) ∧
    setupNotifications true [] (fun _ => (1, 1)) enabledWindow [] = [] ∧
    randomReminder [] 1 1 [] = genericReminderText :=
  ⟨⟨by decide, by decide, by decide, by decide, by decide⟩,
    (claim_C9_amended true [] (fun _ => (1, 1)) enabledWindow (by decide) (by decide)
      (by decide) (by decide) (by decide)).1,
    (claim_C9_amended true [] (fun _ => (1, 1)) enabledWindow (by decide) (by decide)
      (by decide) (by decide) (by decide)).2 1 1⟩

/-! ## Claim about the settings handlers (src/App.tsx) -/

/-- C10: from a state satisfying the window invariant, any
`updateReminderWindow` press keeps `startHour ∈ [0,22]`,
`endHour ∈ [1,23]` and `startHour < endHour`, and the `timesPerDay`
steppers keep `timesPerDay ∈ [1,8]`. -/
theorem claim_C10 (rs : ReminderSettings) (field : HourField) (delta : Int)
    (h0 : 0 ≤ rs.startHour) (hlt : rs.startHour < rs.endHour)
    (h23 : rs.endHour ≤ 23) (ht1 : 1 ≤ rs.timesPerDay) (ht8 : rs.timesPerDay ≤ 8) :
    (0 ≤ (updateReminderWindow field delta rs).startHour ∧
      (updateReminderWindow field delta rs).startHour ≤ 22 ∧
      1 ≤ (updateReminderWindow field delta rs).endHour ∧
      (updateReminderWindow field delta rs).endHour ≤ 23 ∧
      (updateReminderWindow field delta rs).startHour <
        (updateReminderWindow field delta rs).endHour) ∧
    (1 ≤ (decTimesPerDay rs).timesPerDay ∧ (decTimesPerDay rs).timesPerDay ≤ 8) ∧
    (1 ≤ (incTimesPerDay rs).timesPerDay ∧ (incTimesPerDay rs).timesPerDay ≤ 8) := by
  cases field <;>
    simp only [updateReminderWindow, decTimesPerDay, incTimesPerDay, clamp] <;>
    split_ifs <;>
    refine ⟨⟨?_, ?_, ?_, ?_, ?_⟩, ⟨?_, ?_⟩, ⟨?_, ?_⟩⟩ <;>
    omega

/-- Witness for C10: one press of the start-hour plus button from the
default window. -/
theorem claim_C10_witness :
    ((0 : Int) ≤ enabledWindow.startHour ∧ enabledWindow.startHour < enabledWindow.endHour ∧
      enabledWindow.endHour ≤ 23 ∧ 1 ≤ enabledWindow.timesPerDay ∧
      enabledWindow.timesPerDay ≤ 8) ∧
    ((0 ≤ (updateReminderWindow .startHour 1 enabledWindow).startHour ∧
      (updateReminderWindow .startHour 1 enabledWindow).startHour ≤ 22 ∧
      1 ≤ (updateReminderWindow .startHour 1 enabledWindow).endHour ∧
      (updateReminderWindow .startHour 1 enabledWindow).endHour ≤ 23 ∧
      (updateReminderWindow .startHour 1 enabledWindow).startHour <
        (updateReminderWindow .startHour 1 enabledWindow).endHour) ∧
    (1 ≤ (decTimesPerDay enabledWindow).timesPerDay ∧
      (decTimesPerDay enabledWindow).timesPerDay ≤ 8) ∧
    (1 ≤ (incTimesPerDay enabledWindow).timesPerDay ∧
      (incTimesPerDay enabledWindow).timesPerDay ≤ 8)) :=
  ⟨⟨by decide, by decide, by decide, by decide, by decide⟩,
    claim_C10 enabledWindow .startHour 1 (by decide) (by decide) (by decide)
      (by decide) (by decide)⟩

end CharacterPlus
